import Mathlib

/-!
Verification of the session restore / synchronization engine of a
browser-based AI coding assistant (chat persistence hook, restore
coordinator, periodic sync agents, and the file persistence endpoints).

The definitions below are a shallow embedding of the TypeScript source:

* `reconcile` embeds the snapshot-reconciliation block of the
  `useChatHistory` effect (computation of `endingIdx`, `snapshotIndex`,
  `startingIdx`, `archivedMessages`, the visible message window, and the
  two synthesized restore messages).
* `runActivation` embeds the control flow of the restore effect
  (deduplication lock, local load, remote fallback, opportunistic
  write-back, the `ready` flag).
* `FileSyncService.syncFiles` and `WorkbenchSyncService.syncState` embed
  the change-detecting sync agents.
* `messagesToSync` and `storeMessageHistoryLocalWrite` embed the
  `no-store` filtering of `storeMessageHistory` / `syncMessagesToSupabase`.
* `filesToUpsert` and `loadFileMap` embed the project-files POST action
  and the full-project-load loader.

Asynchronous results (database reads, network responses, thrown
exceptions) are passed in as explicit parameters; the external command
detector is an opaque function parameter, as the reconciler only consumes
its output.
-/

/-- A message annotation value: either a plain string tag (for example
"no-store" or "hidden") or a structured chat-summary object
(`type: chatSummary` with a `chatId` and a `summary`). -/
inductive Ann where
  | tag (s : String)
  | chatSummary (cid : String) (summary : String)
deriving DecidableEq

/-- A chat message as used by the persistence layer: unique id, role,
textual content, and a list of annotation values (`[]` models an absent
`annotations` field). -/
structure Message where
  id : String
  role : String
  content : String
  anns : List Ann
deriving DecidableEq

/-- A FileMap entry: a folder, or a file with content and a binary flag. -/
inductive Dirent where
  | folder
  | file (content : String) (isBinary : Bool)
deriving DecidableEq

/-- A FileMap, modelled as the ordered list of its entries
(JavaScript `Object.entries` order). -/
def FileMap : Type := List (String × Dirent)

/-- A point-in-time snapshot: the id of the message it was taken at
(`chatIndex`), its FileMap, and an optional summary. -/
structure Snapshot where
  chatIndex : String
  files : List (String × Dirent)
  summary : Option String
deriving DecidableEq

/-- The default snapshot used when none is stored
(`snapshot or fallback to chatIndex empty, files empty`). -/
def emptySnapshot : Snapshot := { chatIndex := "", files := [], summary := none }

/-- JavaScript `Array.prototype.findIndex`: index of the first element
satisfying the predicate, `-1` when there is none. -/
def jsFindIndex {α : Type} (p : α → Bool) : List α → Int
  | [] => -1
  | a :: l =>
    if p a then 0
    else if jsFindIndex p l < 0 then -1 else jsFindIndex p l + 1

/-- JavaScript `Array.prototype.slice` restricted to the nonnegative
start/end indices that occur in the reconciler (`startingIdx + 1 ≥ 0` and
`endingIdx ≥ 0` always hold there). -/
def jsSlice {α : Type} (l : List α) (a b : Int) : List α :=
  (l.take b.toNat).drop a.toNat

/-- `endingIdx`: index just after the rewind-target message when a
`rewindTo` search parameter is present (JavaScript `findIndex + 1`, hence
`0` when the target id does not occur), else the length of the log. -/
def computeEndingIdx (log : List Message) (rewindId : Option String) : Int :=
  match rewindId with
  | some r => jsFindIndex (fun m => m.id == r) log + 1
  | none => (log.length : Int)

/-- `snapshotIndex`: position in the log of the message referenced by the
snapshot's `chatIndex` (with the empty default snapshot when none is
stored); `-1` when absent. -/
def computeSnapshotIndex (log : List Message) (snapOpt : Option Snapshot) : Int :=
  jsFindIndex (fun m => m.id == (snapOpt.getD emptySnapshot).chatIndex) log

/-- `startingIdx`: the snapshot index when it lies in `[0, endingIdx)`,
else `-1`; overridden back to `-1` when `snapshotIndex > 0` and the
message at `snapshotIndex` is itself the rewind target. -/
def computeStartingIdx (log : List Message) (snapOpt : Option Snapshot)
    (rewindId : Option String) : Int :=
  if 0 < computeSnapshotIndex log snapOpt ∧
      (log[(computeSnapshotIndex log snapOpt).toNat]?).map Message.id = rewindId then -1
  else if 0 ≤ computeSnapshotIndex log snapOpt ∧
      computeSnapshotIndex log snapOpt < computeEndingIdx log rewindId then
    computeSnapshotIndex log snapOpt
  else -1

/-- JavaScript `Array.prototype.join`. -/
def jsJoin (sep : String) : List String → String
  | [] => ""
  | [x] => x
  | x :: y :: l => x ++ sep ++ jsJoin sep (y :: l)

/-- The per-file `boltAction` block of the synthesized restore artifact
(whitespace exactly as in the source template literal). -/
def fileActionString (path content : String) : String :=
  "\n                      <boltAction type=\"file\" filePath=\"" ++ path ++ "\">\n"
    ++ content
    ++ "\n                      </boltAction>\n                      "

/-- Leading text of the synthesized restore assistant content: the
followup sentence and the opening `boltArtifact` line of the template
literal, up to the file-entries interpolation. -/
def restoreContentHeader : String :=
  "Bolt Restored your chat from a snapshot. You can revert this message to load the full chat history.\n"
    ++ "                  <boltArtifact id=\"restored-project-setup\" title=\"Restored Project & Setup\" type=\"bundled\">\n"
    ++ "                  "

/-- Trailing text of the synthesized restore assistant content: the
command actions interpolation and the closing `boltArtifact` line. -/
def restoreContentFooter (cmdStr : String) : String :=
  "\n                  " ++ cmdStr ++ "\n                  </boltArtifact>\n                  "

/-- Content of the synthesized restore assistant message: the followup
text plus a bundled `boltArtifact` embedding every snapshot file entry as
a file action (folders map to the empty string before the join), followed
by the detected command actions string. -/
def restoreAssistantContent (snapFiles : List (String × Dirent)) (cmdStr : String) : String :=
  restoreContentHeader
    ++ jsJoin "\n"
      (snapFiles.map fun kv =>
        match kv.2 with
        | Dirent.file c _ => fileActionString kv.1 c
        | Dirent.folder => "")
    ++ restoreContentFooter cmdStr

/-- The snapshot's file entries of type `file`, as `(path, content)`
pairs, in entry order — the input handed to the command detector. -/
def snapshotFileEntries (s : Snapshot) : List (String × String) :=
  s.files.filterMap fun kv =>
    match kv.2 with
    | Dirent.file c _ => some (kv.1, c)
    | Dirent.folder => none

/-- Id of the message at `snapshotIndex` (only read when that index is a
valid position of the log). -/
def snapMsgId (log : List Message) (snapOpt : Option Snapshot) : String :=
  ((log[(computeSnapshotIndex log snapOpt).toNat]?).map Message.id).getD ""

/-- The synthesized hidden user message announcing the restore. -/
def restoreUserMessage (genId : String) : Message :=
  { id := genId
    role := "user"
    content := "Restore project from snapshot"
    anns := [Ann.tag "no-store", Ann.tag "hidden"] }

/-- The synthesized restore assistant message: carries the id of the
snapshot message, embeds the snapshot files and detected command actions,
and is annotated `no-store` plus an optional chat-summary object.
`cmdActions` is the external command detector composed with
`createCommandActionsString`. -/
def restoreAssistantMessage (log : List Message) (snapOpt : Option Snapshot)
    (cmdActions : List (String × String) → String) : Message :=
  let validSnapshot := snapOpt.getD emptySnapshot
  { id := snapMsgId log snapOpt
    role := "assistant"
    content := restoreAssistantContent validSnapshot.files (cmdActions (snapshotFileEntries validSnapshot))
    anns :=
      Ann.tag "no-store" ::
        (match validSnapshot.summary with
         | some s => [Ann.chatSummary (snapMsgId log snapOpt) s]
         | none => []) }

/-- Result of the snapshot reconciliation. -/
structure ReconcileResult where
  startingIdx : Int
  endingIdx : Int
  archivedMessages : List Message
  visibleMessages : List Message
deriving DecidableEq

/-- The Snapshot Reconciler: the pure reconciliation block of the
`useChatHistory` effect. Computes `endingIdx`, `snapshotIndex` and
`startingIdx`, slices the log into archived and visible windows, and —
when `startingIdx > 0` — prepends the two synthesized restore messages
to the visible window. `genId` models the generated id of the hidden
user message; `cmdActions` models the external command detector. -/
def reconcile (log : List Message) (snapOpt : Option Snapshot) (rewindId : Option String)
    (genId : String) (cmdActions : List (String × String) → String) : ReconcileResult :=
  let endingIdx := computeEndingIdx log rewindId
  let startingIdx := computeStartingIdx log snapOpt rewindId
  let filtered := jsSlice log (startingIdx + 1) endingIdx
  let archived := if 0 ≤ startingIdx then jsSlice log 0 (startingIdx + 1) else []
  let visible :=
    if 0 < startingIdx then
      restoreUserMessage genId :: restoreAssistantMessage log snapOpt cmdActions :: filtered
    else filtered
  { startingIdx := startingIdx
    endingIdx := endingIdx
    archivedMessages := archived
    visibleMessages := visible }

/-! ## Helper lemmas about the JavaScript primitives -/

theorem jsFindIndex_ge_neg_one {α : Type} (p : α → Bool) (l : List α) :
    -1 ≤ jsFindIndex p l := by
  induction l with
  | nil => simp [jsFindIndex]
  | cons a l ih =>
    simp only [jsFindIndex]
    split
    · omega
    · split <;> omega

theorem jsFindIndex_lt_length {α : Type} (p : α → Bool) (l : List α) :
    jsFindIndex p l < (l.length : Int) := by
  induction l with
  | nil => simp [jsFindIndex]
  | cons a l ih =>
    simp only [jsFindIndex, List.length_cons]
    split
    · push_cast; omega
    · split <;> push_cast <;> omega

theorem jsFindIndex_getElem {α : Type} (p : α → Bool) (l : List α)
    (h : 0 ≤ jsFindIndex p l) :
    ∃ a, l[(jsFindIndex p l).toNat]? = some a ∧ p a = true := by
  induction l with
  | nil => simp [jsFindIndex] at h
  | cons a l ih =>
    by_cases hpa : p a = true
    · exact ⟨a, by simp [jsFindIndex, hpa], hpa⟩
    · have hpa' : p a = false := by simpa using hpa
      by_cases hr : jsFindIndex p l < 0
      · exfalso
        simp only [jsFindIndex, hpa', Bool.false_eq_true, if_false, hr, if_true] at h
        omega
      · obtain ⟨b, hb, hpb⟩ := ih (by omega)
        refine ⟨b, ?_, hpb⟩
        have hstep : jsFindIndex p (a :: l) = jsFindIndex p l + 1 := by
          simp [jsFindIndex, hpa', hr]
        rw [hstep]
        have htn : (jsFindIndex p l + 1).toNat = (jsFindIndex p l).toNat + 1 := by omega
        rw [htn]
        simpa using hb

theorem jsFindIndex_eq_neg_one {α : Type} (p : α → Bool) (l : List α)
    (h : ∀ a ∈ l, p a = false) : jsFindIndex p l = -1 := by
  induction l with
  | nil => simp [jsFindIndex]
  | cons a l ih =>
    have hpa := h a (by simp)
    have hrec := ih (fun b hb => h b (by simp [hb]))
    simp [jsFindIndex, hpa, hrec]

theorem reconcile_startingIdx (log : List Message) (snapOpt : Option Snapshot)
    (rewindId : Option String) (genId : String)
    (cmdActions : List (String × String) → String) :
    (reconcile log snapOpt rewindId genId cmdActions).startingIdx =
      computeStartingIdx log snapOpt rewindId := rfl

theorem reconcile_endingIdx (log : List Message) (snapOpt : Option Snapshot)
    (rewindId : Option String) (genId : String)
    (cmdActions : List (String × String) → String) :
    (reconcile log snapOpt rewindId genId cmdActions).endingIdx =
      computeEndingIdx log rewindId := rfl

theorem reconcile_archivedMessages (log : List Message) (snapOpt : Option Snapshot)
    (rewindId : Option String) (genId : String)
    (cmdActions : List (String × String) → String) :
    (reconcile log snapOpt rewindId genId cmdActions).archivedMessages =
      if 0 ≤ computeStartingIdx log snapOpt rewindId then
        jsSlice log 0 (computeStartingIdx log snapOpt rewindId + 1)
      else [] := rfl

theorem reconcile_visibleMessages (log : List Message) (snapOpt : Option Snapshot)
    (rewindId : Option String) (genId : String)
    (cmdActions : List (String × String) → String) :
    (reconcile log snapOpt rewindId genId cmdActions).visibleMessages =
      if 0 < computeStartingIdx log snapOpt rewindId then
        restoreUserMessage genId :: restoreAssistantMessage log snapOpt cmdActions ::
          jsSlice log (computeStartingIdx log snapOpt rewindId + 1)
            (computeEndingIdx log rewindId)
      else
        jsSlice log (computeStartingIdx log snapOpt rewindId + 1)
          (computeEndingIdx log rewindId) := rfl

theorem computeStartingIdx_ge_neg_one (log : List Message) (snapOpt : Option Snapshot)
    (rewindId : Option String) : -1 ≤ computeStartingIdx log snapOpt rewindId := by
  unfold computeStartingIdx
  split
  · omega
  · split
    · next h => omega
    · omega

/-- When the snapshot's `chatIndex` resolves to a position of the log, the
message found there carries exactly that id. -/
theorem computeSnapshotIndex_id (log : List Message) (snapOpt : Option Snapshot)
    (h : 0 ≤ computeSnapshotIndex log snapOpt) :
    (log[(computeSnapshotIndex log snapOpt).toNat]?).map Message.id =
      some (snapOpt.getD emptySnapshot).chatIndex := by
  obtain ⟨m, hm, hpm⟩ := jsFindIndex_getElem _ _ h
  unfold computeSnapshotIndex
  rw [show (log[(jsFindIndex (fun m => m.id == (snapOpt.getD emptySnapshot).chatIndex) log).toNat]? : Option Message) = some m from hm]
  simp only [Option.map_some']
  exact congrArg some (by simpa using hpm)

/-! ## Demo inputs used by the witnesses -/

/-- Demo message m0. -/
def mA : Message := { id := "m0", role := "user", content := "hello", anns := [] }

/-- Demo message m1 (the snapshot point). -/
def mB : Message := { id := "m1", role := "assistant", content := "hi", anns := [] }

/-- Demo message m2. -/
def mC : Message := { id := "m2", role := "user", content := "more", anns := [] }

/-- Demo message m3. -/
def mD : Message := { id := "m3", role := "assistant", content := "done", anns := [] }

/-- Demo message log. -/
def demoLog : List Message := [mA, mB, mC, mD]

/-- Demo snapshot taken at m1 with one file. -/
def demoSnap : Snapshot :=
  { chatIndex := "m1", files := [("a.txt", Dirent.file "hi" false)], summary := none }

/-- Demo command detector returning no command actions. -/
def demoCmd : List (String × String) → String := fun _ => ""

/-! ## C1: rewind-to-snapshot override -/

/-- C1: if the snapshot's `chatIndex` resolves to a log position
`snapshotIndex > 0` and the message at that position is itself the rewind
target, the reconciliation forces `startingIdx = -1`: `archivedMessages`
is empty and `visibleMessages` is the log prefix up to and including the
rewind target, with no synthetic replay messages prepended. -/
theorem rewind_to_snapshot_override (log : List Message) (snapOpt : Option Snapshot)
    (rewindId : Option String) (genId : String)
    (cmdActions : List (String × String) → String)
    (hsi : 0 < computeSnapshotIndex log snapOpt)
    (hrw : rewindId = some (snapOpt.getD emptySnapshot).chatIndex) :
    (reconcile log snapOpt rewindId genId cmdActions).startingIdx = -1 ∧
    (reconcile log snapOpt rewindId genId cmdActions).archivedMessages = [] ∧
    (reconcile log snapOpt rewindId genId cmdActions).visibleMessages =
      log.take ((computeSnapshotIndex log snapOpt).toNat + 1) := by
  have hid := computeSnapshotIndex_id log snapOpt (le_of_lt hsi)
  have hstart : computeStartingIdx log snapOpt rewindId = -1 := by
    unfold computeStartingIdx
    rw [if_pos ⟨hsi, hid.trans hrw.symm⟩]
  have hend : computeEndingIdx log rewindId = computeSnapshotIndex log snapOpt + 1 := by
    subst hrw
    rfl
  refine ⟨?_, ?_, ?_⟩
  · rw [reconcile_startingIdx]
    exact hstart
  · rw [reconcile_archivedMessages, hstart]
    simp
  · rw [reconcile_visibleMessages, hstart, hend]
    rw [if_neg (by norm_num : ¬ (0 : Int) < -1)]
    unfold jsSlice
    have h2 : (computeSnapshotIndex log snapOpt + 1).toNat =
        (computeSnapshotIndex log snapOpt).toNat + 1 := by omega
    have h3 : ((-1 : Int) + 1).toNat = 0 := by norm_num
    rw [h2, h3, List.drop_zero]

/-- Witness for C1 at the spec's concrete example: log `[m0, m1, m2, m3]`,
snapshot at `m1`, rewind target `m1`. -/
theorem rewind_to_snapshot_override_witness :
    (0 < computeSnapshotIndex demoLog (some demoSnap) ∧
      (some "m1" : Option String) = some (((some demoSnap).getD emptySnapshot).chatIndex)) ∧
    ((reconcile demoLog (some demoSnap) (some "m1") "gen" demoCmd).startingIdx = -1 ∧
     (reconcile demoLog (some demoSnap) (some "m1") "gen" demoCmd).archivedMessages = [] ∧
     (reconcile demoLog (some demoSnap) (some "m1") "gen" demoCmd).visibleMessages =
       demoLog.take ((computeSnapshotIndex demoLog (some demoSnap)).toNat + 1)) :=
  ⟨⟨by decide, by decide⟩,
    rewind_to_snapshot_override demoLog (some demoSnap) (some "m1") "gen" demoCmd
      (by decide) (by decide)⟩

/-! ## C9: absent rewind target yields an empty conversation -/

/-- C9: for a non-empty stored log and a rewind-target id that occurs
nowhere in the log, the reconciliation computes `endingIdx = 0` and
`startingIdx = -1`, so both the visible and the archived message lists
are empty. -/
theorem absent_rewind_target_empty (log : List Message) (snapOpt : Option Snapshot)
    (genId : String) (cmdActions : List (String × String) → String) (r : String)
    (_hne : log ≠ []) (habs : ∀ m ∈ log, m.id ≠ r) :
    (reconcile log snapOpt (some r) genId cmdActions).endingIdx = 0 ∧
    (reconcile log snapOpt (some r) genId cmdActions).startingIdx = -1 ∧
    (reconcile log snapOpt (some r) genId cmdActions).visibleMessages = [] ∧
    (reconcile log snapOpt (some r) genId cmdActions).archivedMessages = [] := by
  have hfind : jsFindIndex (fun m => m.id == r) log = -1 :=
    jsFindIndex_eq_neg_one _ _ (fun m hm => by simpa using habs m hm)
  have hend : computeEndingIdx log (some r) = 0 := by
    have h0 : computeEndingIdx log (some r) = jsFindIndex (fun m => m.id == r) log + 1 := rfl
    rw [h0, hfind]
    norm_num
  have hov : ¬ (0 < computeSnapshotIndex log snapOpt ∧
      (log[(computeSnapshotIndex log snapOpt).toNat]?).map Message.id = some r) := by
    rintro ⟨h1, h2⟩
    rw [computeSnapshotIndex_id log snapOpt (le_of_lt h1)] at h2
    obtain ⟨m, hm, hpm⟩ := jsFindIndex_getElem _ _ (le_of_lt h1)
    have hmem : m ∈ log := List.getElem?_mem hm
    have hid : m.id = (snapOpt.getD emptySnapshot).chatIndex := by simpa using hpm
    exact habs m hmem (hid.trans (Option.some.inj h2))
  have hstart : computeStartingIdx log snapOpt (some r) = -1 := by
    unfold computeStartingIdx
    rw [if_neg hov, hend, if_neg (by omega :
      ¬ (0 ≤ computeSnapshotIndex log snapOpt ∧ computeSnapshotIndex log snapOpt < 0))]
  refine ⟨?_, ?_, ?_, ?_⟩
  · rw [reconcile_endingIdx]
    exact hend
  · rw [reconcile_startingIdx]
    exact hstart
  · rw [reconcile_visibleMessages, hstart, hend,
      if_neg (by norm_num : ¬ (0 : Int) < -1)]
    unfold jsSlice
    simp
  · rw [reconcile_archivedMessages, hstart]
    simp

/-- Witness for C9: log `[m0, m1, m2, m3]`, rewind target `zzz` absent. -/
theorem absent_rewind_target_empty_witness :
    (demoLog ≠ [] ∧ ∀ m ∈ demoLog, m.id ≠ "zzz") ∧
    ((reconcile demoLog (some demoSnap) (some "zzz") "gen" demoCmd).endingIdx = 0 ∧
     (reconcile demoLog (some demoSnap) (some "zzz") "gen" demoCmd).startingIdx = -1 ∧
     (reconcile demoLog (some demoSnap) (some "zzz") "gen" demoCmd).visibleMessages = [] ∧
     (reconcile demoLog (some demoSnap) (some "zzz") "gen" demoCmd).archivedMessages = []) :=
  ⟨⟨by decide, by decide⟩,
    absent_rewind_target_empty demoLog (some demoSnap) "gen" demoCmd "zzz"
      (by decide) (by decide)⟩

/-! ## C5: reconstruction identity -/

theorem jsSlice_reconstruct (log : List Message) (s : Int) :
    jsSlice log 0 (s + 1) ++ jsSlice log (s + 1) (log.length : Int) = log := by
  unfold jsSlice
  have h0 : ((0 : Int)).toNat = 0 := rfl
  have h1 : ((log.length : Int)).toNat = log.length := by omega
  rw [h0, h1, List.take_length, List.drop_zero]
  exact List.take_append_drop _ _

/-- C5: with no rewind target (`endingIdx` = log length), concatenating
the archived messages with the visible messages — minus the two
synthesized leading entries when `startingIdx > 0` — yields exactly the
original log, in order. -/
theorem reconstruction_identity (log : List Message) (snapOpt : Option Snapshot)
    (genId : String) (cmdActions : List (String × String) → String) :
    (reconcile log snapOpt none genId cmdActions).archivedMessages ++
      (if 0 < (reconcile log snapOpt none genId cmdActions).startingIdx then
        (reconcile log snapOpt none genId cmdActions).visibleMessages.drop 2
      else (reconcile log snapOpt none genId cmdActions).visibleMessages) = log := by
  rw [reconcile_archivedMessages, reconcile_visibleMessages, reconcile_startingIdx]
  have hs1 : -1 ≤ computeStartingIdx log snapOpt none :=
    computeStartingIdx_ge_neg_one log snapOpt none
  have hend : computeEndingIdx log none = (log.length : Int) := rfl
  rw [hend]
  by_cases h0 : 0 < computeStartingIdx log snapOpt none
  · rw [if_pos h0, if_pos h0, if_pos (by omega : 0 ≤ computeStartingIdx log snapOpt none)]
    simp only [List.drop_succ_cons, List.drop_zero]
    exact jsSlice_reconstruct log _
  · rw [if_neg h0, if_neg h0]
    by_cases h1 : 0 ≤ computeStartingIdx log snapOpt none
    · rw [if_pos h1]
      exact jsSlice_reconstruct log _
    · rw [if_neg h1]
      have h2 : computeStartingIdx log snapOpt none + 1 = 0 := by omega
      rw [List.nil_append, h2]
      unfold jsSlice
      simp

/-! ## C2: snapshot replay synthesis -/

theorem jsJoin_mem_isInfix (sep s : String) (strs : List String) (h : s ∈ strs) :
    List.IsInfix s.data (jsJoin sep strs).data := by
  induction strs with
  | nil => simp at h
  | cons x l ih =>
    cases l with
    | nil =>
      simp only [List.mem_singleton] at h
      subst h
      exact List.infix_rfl
    | cons y t =>
      rcases List.mem_cons.mp h with h1 | h2
      · subst h1
        show List.IsInfix s.data ((s ++ sep ++ jsJoin sep (y :: t)).data)
        exact ⟨[], sep.data ++ (jsJoin sep (y :: t)).data, by simp⟩
      · obtain ⟨u, v, huv⟩ := ih h2
        show List.IsInfix s.data ((x ++ sep ++ jsJoin sep (y :: t)).data)
        refine ⟨x.data ++ sep.data ++ u, v, ?_⟩
        simp only [String.data_append]
        rw [← huv]
        simp

theorem fileAction_infix_content (snapFiles : List (String × Dirent)) (cmdStr : String)
    (p c : String) (b : Bool) (hmem : (p, Dirent.file c b) ∈ snapFiles) :
    List.IsInfix (fileActionString p c).data
      (restoreAssistantContent snapFiles cmdStr).data := by
  have hmem2 : fileActionString p c ∈ snapFiles.map (fun kv =>
      match kv.2 with
      | Dirent.file c _ => fileActionString kv.1 c
      | Dirent.folder => "") :=
    List.mem_map.mpr ⟨(p, Dirent.file c b), hmem, rfl⟩
  refine List.IsInfix.trans (jsJoin_mem_isInfix "\n" _ _ hmem2) ?_
  unfold restoreAssistantContent
  exact ⟨restoreContentHeader.data, (restoreContentFooter cmdStr).data, by simp⟩

/-- C2: whenever the reconciliation yields `startingIdx > 0`, the visible
messages begin with exactly two synthesized entries — a hidden user
message announcing the restore (annotated `no-store` and `hidden`) and a
`no-store` assistant message embedding every snapshot file entry as a
file-creation action together with the detected command actions —
followed by the original log slice from `startingIdx + 1` to
`endingIdx`. -/
theorem snapshot_replay_synthesis (log : List Message) (snapOpt : Option Snapshot)
    (rewindId : Option String) (genId : String)
    (cmdActions : List (String × String) → String)
    (h : 0 < (reconcile log snapOpt rewindId genId cmdActions).startingIdx) :
    (reconcile log snapOpt rewindId genId cmdActions).visibleMessages =
        restoreUserMessage genId :: restoreAssistantMessage log snapOpt cmdActions ::
          jsSlice log ((reconcile log snapOpt rewindId genId cmdActions).startingIdx + 1)
            (reconcile log snapOpt rewindId genId cmdActions).endingIdx ∧
    (restoreUserMessage genId).role = "user" ∧
    (restoreUserMessage genId).anns = [Ann.tag "no-store", Ann.tag "hidden"] ∧
    (restoreAssistantMessage log snapOpt cmdActions).role = "assistant" ∧
    Ann.tag "no-store" ∈ (restoreAssistantMessage log snapOpt cmdActions).anns ∧
    (restoreAssistantMessage log snapOpt cmdActions).content =
      restoreAssistantContent (snapOpt.getD emptySnapshot).files
        (cmdActions (snapshotFileEntries (snapOpt.getD emptySnapshot))) ∧
    ∀ p c : String, ∀ b : Bool, (p, Dirent.file c b) ∈ (snapOpt.getD emptySnapshot).files →
      List.IsInfix (fileActionString p c).data
        (restoreAssistantMessage log snapOpt cmdActions).content.data := by
  rw [reconcile_startingIdx] at h
  refine ⟨?_, rfl, rfl, rfl, ?_, rfl, ?_⟩
  · rw [reconcile_visibleMessages, reconcile_startingIdx, reconcile_endingIdx, if_pos h]
  · exact List.mem_cons_self _ _
  · intro p c b hmem
    exact fileAction_infix_content _ _ p c b hmem

/-- Demo three-message log for the replay-synthesis witness. -/
def demoLog3 : List Message := [mA, mB, mC]

/-- Witness for C2 at the spec's concrete example: log `[m0, m1, m2]`,
snapshot at `m1` with file `a.txt`, rewind target `m2`
(so `startingIdx = 1`). -/
theorem snapshot_replay_synthesis_witness :
    0 < (reconcile demoLog3 (some demoSnap) (some "m2") "gen" demoCmd).startingIdx ∧
    ((reconcile demoLog3 (some demoSnap) (some "m2") "gen" demoCmd).visibleMessages =
        restoreUserMessage "gen" :: restoreAssistantMessage demoLog3 (some demoSnap) demoCmd ::
          jsSlice demoLog3 ((reconcile demoLog3 (some demoSnap) (some "m2") "gen" demoCmd).startingIdx + 1)
            (reconcile demoLog3 (some demoSnap) (some "m2") "gen" demoCmd).endingIdx ∧
     (restoreUserMessage "gen").role = "user" ∧
     (restoreUserMessage "gen").anns = [Ann.tag "no-store", Ann.tag "hidden"] ∧
     (restoreAssistantMessage demoLog3 (some demoSnap) demoCmd).role = "assistant" ∧
     Ann.tag "no-store" ∈ (restoreAssistantMessage demoLog3 (some demoSnap) demoCmd).anns ∧
     (restoreAssistantMessage demoLog3 (some demoSnap) demoCmd).content =
       restoreAssistantContent ((some demoSnap).getD emptySnapshot).files
         (demoCmd (snapshotFileEntries ((some demoSnap).getD emptySnapshot))) ∧
     ∀ p c : String, ∀ b : Bool,
       (p, Dirent.file c b) ∈ ((some demoSnap).getD emptySnapshot).files →
         List.IsInfix (fileActionString p c).data
           (restoreAssistantMessage demoLog3 (some demoSnap) demoCmd).content.data) :=
  ⟨by decide,
    snapshot_replay_synthesis demoLog3 (some demoSnap) (some "m2") "gen" demoCmd (by decide)⟩

/-! ## Restore Coordinator model (the `useChatHistory` effect) -/

/-- A record of the Local History Store: chat id, optional url id and
description, and the stored message log. -/
structure ChatHistoryItem where
  id : String
  urlId : Option String
  description : Option String
  messages : List Message
deriving DecidableEq

/-- Outcome of the initial `Promise.all` of the local store queries:
either both resolve (the stored chat, possibly absent, and the stored
snapshot, possibly absent), or the combined promise rejects. -/
inductive LocalLoad where
  | ok (stored : Option ChatHistoryItem) (snap : Option Snapshot)
  | rejected

/-- Outcome of the remote fallback restore call: a project with its
messages, url id and description; a null result (project absent, or it
threw 404-style inside the service which returns null); or a thrown
error. -/
inductive RemoteOutcome where
  | ok (messages : List Message) (urlId : Option String) (description : Option String)
  | nullResult
  | errored

/-- Whether the stored snapshot carries at least one file entry
(the guard before restoring files to the sandbox). -/
def snapshotHasFiles (snap : Option Snapshot) : Bool :=
  match snap with
  | some s => !s.files.isEmpty
  | none => false

/-- Result of the opportunistic write-back decision after a successful
remote restore. -/
structure WriteBackResult where
  wrote : Bool
  adoptedId : Option String
deriving DecidableEq

/-- The opportunistic write-back block: look up an existing local record
by chat id, falling back to the url-id lookup; save the fetched messages
when no record was found or the found record has an empty message list;
otherwise skip the save and adopt the existing record's id when it
differs from the current one. -/
def writeBackDecision (mixedId : String)
    (existingById existingByUrlId : Option ChatHistoryItem) : WriteBackResult :=
  match existingById.orElse (fun _ => existingByUrlId) with
  | none => { wrote := true, adoptedId := none }
  | some c =>
    if c.messages.length = 0 then { wrote := true, adoptedId := none }
    else { wrote := false, adoptedId := if c.id ≠ mixedId then some c.id else none }

/-- The by-url-id local lookup actually performed during the write-back:
it only runs when the fetched remote project carries a url id
(`supabaseData.urlId ? getMessagesByUrlId(...) : Promise.resolve(null)`).
-/
def effectiveByUrlLookup (rurl : Option String)
    (existingByUrlId : Option ChatHistoryItem) : Option ChatHistoryItem :=
  match rurl with
  | some _ => existingByUrlId
  | none => none

/-- The asynchronous inputs of one activation of the restore effect. -/
structure ActivationInput where
  dbOk : Bool
  localLoad : LocalLoad
  rewindId : Option String
  genId : String
  cmdActions : List (String × String) → String
  detectThrows : Bool
  restoreFilesOk : Bool
  remote : RemoteOutcome
  existingById : Option ChatHistoryItem
  existingByUrlId : Option ChatHistoryItem

/-- Observable outcome of one activation of the restore effect:
whether `setReady(true)` was called, whether the local query sequence was
launched, the value of the `restoreInProgress` lock right after the
promise chain settles (before the delayed 5s release), whether the user
was redirected home, and the write-back decision taken. -/
structure ActivationResult where
  readySet : Bool
  queryStarted : Bool
  lockAfterSync : Bool
  navigatedHome : Bool
  wroteBack : Bool
  adoptedId : Option String

/-- One activation of the restore effect. Control flow of the source:
an activation arriving while `restoreInProgress` is held returns at once;
without a database handle, or without a session identifier, `ready` is
set immediately; otherwise the lock is taken and the local store queried.
A rejected local query runs the catch handler (lock reset, no
`setReady`). A resolved query with a non-empty stored log runs the
reconciler — when `startingIdx > 0` the awaited command detection may
throw, reaching the catch handler — then restores snapshot files (a
failure there only resets the lock) and sets `ready`. An empty or absent
local log falls back to the remote store: a thrown remote error is caught
and `ready` is still set; a null or empty result navigates home; a
successful result runs the write-back decision (by-url lookup only when
the fetched project has a url id) and sets `ready`. -/
def runActivation (lockHeld : Bool) (mixedId : Option String) (inp : ActivationInput) :
    ActivationResult :=
  if lockHeld then
    { readySet := false, queryStarted := false, lockAfterSync := true,
      navigatedHome := false, wroteBack := false, adoptedId := none }
  else if inp.dbOk = false then
    { readySet := true, queryStarted := false, lockAfterSync := false,
      navigatedHome := false, wroteBack := false, adoptedId := none }
  else
    match mixedId with
    | none =>
      { readySet := true, queryStarted := false, lockAfterSync := false,
        navigatedHome := false, wroteBack := false, adoptedId := none }
    | some mid =>
      match inp.localLoad with
      | LocalLoad.rejected =>
        { readySet := false, queryStarted := true, lockAfterSync := false,
          navigatedHome := false, wroteBack := false, adoptedId := none }
      | LocalLoad.ok stored snap =>
        let msgs := match stored with | some s => s.messages | none => []
        if 0 < msgs.length then
          if 0 < (reconcile msgs snap inp.rewindId inp.genId inp.cmdActions).startingIdx ∧
              inp.detectThrows = true then
            { readySet := false, queryStarted := true, lockAfterSync := false,
              navigatedHome := false, wroteBack := false, adoptedId := none }
          else
            { readySet := true, queryStarted := true,
              lockAfterSync := !(snapshotHasFiles snap && !inp.restoreFilesOk),
              navigatedHome := false, wroteBack := false, adoptedId := none }
        else
          match inp.remote with
          | RemoteOutcome.errored =>
            { readySet := true, queryStarted := true, lockAfterSync := true,
              navigatedHome := false, wroteBack := false, adoptedId := none }
          | RemoteOutcome.nullResult =>
            { readySet := true, queryStarted := true, lockAfterSync := true,
              navigatedHome := true, wroteBack := false, adoptedId := none }
          | RemoteOutcome.ok rmsgs rurl _rdescr =>
            if 0 < rmsgs.length then
              let wb := writeBackDecision mid inp.existingById
                (effectiveByUrlLookup rurl inp.existingByUrlId)
              { readySet := true, queryStarted := true, lockAfterSync := true,
                navigatedHome := false, wroteBack := wb.wrote, adoptedId := wb.adoptedId }
            else
              { readySet := true, queryStarted := true, lockAfterSync := true,
                navigatedHome := true, wroteBack := false, adoptedId := none }

/-- The service-level restore deduplication (`ProjectRestoreService`):
a call whose project id already has an in-flight restore reuses it and
starts no new query sequence; otherwise the id is tracked and the query
sequence starts. The returned Boolean is whether a new query sequence
was launched. -/
def restoreProjectCall (activeRestores : List String) (projectId : String) :
    List String × Bool :=
  if projectId ∈ activeRestores then (activeRestores, false)
  else (projectId :: activeRestores, true)

/-! ## C3: ready flag on restore completion -/

/-- An activation whose local store queries reject. -/
def demoInputRejected : ActivationInput :=
  { dbOk := true, localLoad := LocalLoad.rejected, rewindId := none, genId := "g",
    cmdActions := demoCmd, detectThrows := false, restoreFilesOk := true,
    remote := RemoteOutcome.errored, existingById := none, existingByUrlId := none }

/-- Counterexample to C3 as stated: an activation with a session
identifier whose local store queries reject runs the catch handler,
which never calls `setReady(true)` — the failed restore leaves the UI
not ready. -/
theorem ready_on_every_outcome_counterexample :
    (runActivation false (some "chat-1") demoInputRejected).readySet = false := by
  decide

/-- C3 (amended): `ready` is set on every activation that is not dropped
by the lock and whose local store queries resolve, provided the awaited
command detection does not throw — in particular on every remote-path
outcome (success, miss with redirect, thrown error) and on snapshot
file-restore failure. A rejection of the local queries (or a throw in the
reconciliation) reaches the catch handler, which does not set `ready`. -/
theorem ready_on_every_resolved_restore (mixedId : Option String) (inp : ActivationInput)
    (stored : Option ChatHistoryItem) (snap : Option Snapshot)
    (hload : inp.localLoad = LocalLoad.ok stored snap)
    (hdet : inp.detectThrows = false) :
    (runActivation false mixedId inp).readySet = true := by
  unfold runActivation
  rw [if_neg (by simp : ¬ (false = true))]
  split
  · rfl
  · cases mixedId with
    | none => rfl
    | some mid =>
      simp only [hload]
      split
      · rw [if_neg (fun hc => by simp [hdet] at hc)]
      · cases inp.remote with
        | ok rmsgs rurl rdescr =>
          dsimp only
          split <;> rfl
        | nullResult => rfl
        | errored => rfl

/-- An activation whose remote fallback throws. -/
def demoInputRemoteError : ActivationInput :=
  { dbOk := true, localLoad := LocalLoad.ok none none, rewindId := none, genId := "g",
    cmdActions := demoCmd, detectThrows := false, restoreFilesOk := true,
    remote := RemoteOutcome.errored, existingById := none, existingByUrlId := none }

/-- Witness for the amended C3: a restore whose remote fallback throws
still sets `ready`. -/
theorem ready_on_every_resolved_restore_witness :
    (demoInputRemoteError.localLoad = LocalLoad.ok none none ∧
      demoInputRemoteError.detectThrows = false) ∧
    (runActivation false (some "chat-1") demoInputRemoteError).readySet = true :=
  ⟨⟨rfl, rfl⟩,
    ready_on_every_resolved_restore (some "chat-1") demoInputRemoteError none none rfl rfl⟩

/-! ## C4: at-most-one concurrent restore -/

theorem queryStarted_of_unlocked (s : String) (inp : ActivationInput)
    (hdb : inp.dbOk = true) :
    (runActivation false (some s) inp).queryStarted = true := by
  unfold runActivation
  rw [if_neg (by simp : ¬ (false = true))]
  rw [if_neg (by simp [hdb] : ¬ inp.dbOk = false)]
  cases hL : inp.localLoad with
  | rejected => rfl
  | ok stored snap =>
    dsimp only
    split
    · split <;> rfl
    · cases inp.remote with
      | ok rmsgs rurl rdescr =>
        dsimp only
        split <;> rfl
      | nullResult => rfl
      | errored => rfl

/-- C4: while the `restoreInProgress` lock of the component instance is
held, a second activation for the same session identifier is dropped: it
starts no Local/Remote Store query sequence and leaves the lock held, so
two activations inside the lock window execute exactly the one query
sequence launched by the first. Once the lock is released (after its
delay), an activation — also for a changed session identifier — starts a
fresh query sequence. The service-level deduplication behaves alike: a
restore call for a project id with an in-flight restore reuses it and
starts no new query sequence, while a call for an untracked id starts
one. -/
theorem at_most_one_concurrent_restore (s s2 : String) (i1 i2 i3 : ActivationInput)
    (h1db : i1.dbOk = true)
    (h1 : (runActivation false (some s) i1).lockAfterSync = true)
    (h3db : i3.dbOk = true) :
    (runActivation false (some s) i1).queryStarted = true ∧
    (runActivation ((runActivation false (some s) i1).lockAfterSync) (some s) i2).queryStarted
        = false ∧
    (runActivation ((runActivation false (some s) i1).lockAfterSync) (some s) i2).lockAfterSync
        = true ∧
    (runActivation false (some s2) i3).queryStarted = true ∧
    (∀ (active : List String) (pid : String), pid ∈ active →
        restoreProjectCall active pid = (active, false)) ∧
    (∀ (active : List String) (pid : String), pid ∉ active →
        restoreProjectCall active pid = (pid :: active, true)) := by
  refine ⟨queryStarted_of_unlocked s i1 h1db, ?_, ?_,
    queryStarted_of_unlocked s2 i3 h3db, ?_, ?_⟩
  · rw [h1]
    rfl
  · rw [h1]
    rfl
  · intro active pid hmem
    simp [restoreProjectCall, hmem]
  · intro active pid hmem
    simp [restoreProjectCall, hmem]

/-- A locally stored one-message chat. -/
def demoStored : ChatHistoryItem :=
  { id := "chat-1", urlId := none, description := none, messages := [mA] }

/-- An activation that restores `demoStored` from the local store. -/
def demoInputLocal : ActivationInput :=
  { dbOk := true, localLoad := LocalLoad.ok (some demoStored) none, rewindId := none,
    genId := "g", cmdActions := demoCmd, detectThrows := false, restoreFilesOk := true,
    remote := RemoteOutcome.nullResult, existingById := none, existingByUrlId := none }

/-- Witness for C4: a concrete successful local restore holds the lock,
the second activation inside the window is dropped, and a fresh
activation after the release starts a query sequence. -/
theorem at_most_one_concurrent_restore_witness :
    (demoInputLocal.dbOk = true ∧
     (runActivation false (some "chat-1") demoInputLocal).lockAfterSync = true) ∧
    ((runActivation false (some "chat-1") demoInputLocal).queryStarted = true ∧
     (runActivation ((runActivation false (some "chat-1") demoInputLocal).lockAfterSync)
         (some "chat-1") demoInputLocal).queryStarted = false ∧
     (runActivation ((runActivation false (some "chat-1") demoInputLocal).lockAfterSync)
         (some "chat-1") demoInputLocal).lockAfterSync = true ∧
     (runActivation false (some "chat-2") demoInputLocal).queryStarted = true ∧
     (∀ (active : List String) (pid : String), pid ∈ active →
         restoreProjectCall active pid = (active, false)) ∧
     (∀ (active : List String) (pid : String), pid ∉ active →
         restoreProjectCall active pid = (pid :: active, true))) :=
  ⟨⟨rfl, by decide⟩,
    at_most_one_concurrent_restore "chat-1" "chat-2" demoInputLocal demoInputLocal
      demoInputLocal rfl (by decide) rfl⟩

/-! ## C6: opportunistic write-back condition -/

theorem writeBackDecision_none (mid : String) (a b : Option ChatHistoryItem)
    (h : a.orElse (fun _ => b) = none) :
    writeBackDecision mid a b = { wrote := true, adoptedId := none } := by
  unfold writeBackDecision
  rw [h]

theorem writeBackDecision_some_empty (mid : String) (a b : Option ChatHistoryItem)
    (c : ChatHistoryItem) (h : a.orElse (fun _ => b) = some c)
    (hm : c.messages.length = 0) :
    writeBackDecision mid a b = { wrote := true, adoptedId := none } := by
  unfold writeBackDecision
  rw [h]
  dsimp only
  rw [if_pos hm]

theorem writeBackDecision_some_nonempty (mid : String) (a b : Option ChatHistoryItem)
    (c : ChatHistoryItem) (h : a.orElse (fun _ => b) = some c)
    (hm : ¬ c.messages.length = 0) :
    writeBackDecision mid a b =
      { wrote := false, adoptedId := if c.id ≠ mid then some c.id else none } := by
  unfold writeBackDecision
  rw [h]
  dsimp only
  rw [if_neg hm]

/-- A local record with the current chat id but an empty message list. -/
def demoEmptyRecord : ChatHistoryItem :=
  { id := "c1", urlId := some "u1", description := none, messages := [] }

/-- A successful remote restore finding `demoEmptyRecord` locally. -/
def demoInputWriteBack : ActivationInput :=
  { dbOk := true, localLoad := LocalLoad.ok none none, rewindId := none, genId := "g",
    cmdActions := demoCmd, detectThrows := false, restoreFilesOk := true,
    remote := RemoteOutcome.ok [mC] (some "u1") none,
    existingById := some demoEmptyRecord, existingByUrlId := none }

/-- Counterexample to C6 as stated: a local record with the same chat
identifier exists (`demoEmptyRecord`, with an empty message list), yet
the fetched messages are still written back — so "written back iff no
record with the same id or url id already exists" fails on the code. -/
theorem write_back_counterexample :
    ¬ ((runActivation false (some "c1") demoInputWriteBack).wroteBack = true ↔
      (demoInputWriteBack.existingById = none ∧
       demoInputWriteBack.existingByUrlId = none)) := by
  decide

/-- C6 (amended): after a successful remote fallback restore the fetched
messages are written back into the Local History Store iff the record
found by chat identifier (or, failing that, by url identifier — looked
up only when the fetched project has one) is absent or has an empty
message list; when a non-empty record is found the local copy is left
unchanged and its identifier is adopted as the current chat identifier
exactly when it differs. -/
theorem write_back_condition (mid : String) (inp : ActivationInput)
    (stored : Option ChatHistoryItem) (snap : Option Snapshot)
    (rmsgs : List Message) (rurl rdescr : Option String)
    (hload : inp.localLoad = LocalLoad.ok stored snap)
    (hempty : (match stored with | some s => s.messages | none => []) = [])
    (hremote : inp.remote = RemoteOutcome.ok rmsgs rurl rdescr)
    (hrm : 0 < rmsgs.length)
    (hdb : inp.dbOk = true) :
    ((runActivation false (some mid) inp).wroteBack = true ↔
      ∀ c, inp.existingById.orElse
          (fun _ => effectiveByUrlLookup rurl inp.existingByUrlId) = some c →
        c.messages = []) ∧
    (∀ c, inp.existingById.orElse
        (fun _ => effectiveByUrlLookup rurl inp.existingByUrlId) = some c →
      c.messages ≠ [] →
      (runActivation false (some mid) inp).wroteBack = false ∧
      (runActivation false (some mid) inp).adoptedId =
        (if c.id ≠ mid then some c.id else none)) := by
  have hrun : (runActivation false (some mid) inp).wroteBack =
        (writeBackDecision mid inp.existingById
          (effectiveByUrlLookup rurl inp.existingByUrlId)).wrote ∧
      (runActivation false (some mid) inp).adoptedId =
        (writeBackDecision mid inp.existingById
          (effectiveByUrlLookup rurl inp.existingByUrlId)).adoptedId := by
    unfold runActivation
    rw [if_neg (by simp : ¬ (false = true)), if_neg (by simp [hdb] : ¬ inp.dbOk = false)]
    rw [hload]
    dsimp only
    rw [if_neg (by simp [hempty]), hremote]
    dsimp only
    rw [if_pos hrm]
    exact ⟨rfl, rfl⟩
  obtain ⟨hw, ha⟩ := hrun
  rw [hw, ha]
  cases hx : inp.existingById.orElse (fun _ => effectiveByUrlLookup rurl inp.existingByUrlId) with
  | none =>
    rw [writeBackDecision_none mid _ _ hx]
    constructor
    · simp
    · intro c hc
      simp at hc
  | some c =>
    by_cases hm : c.messages.length = 0
    · rw [writeBackDecision_some_empty mid _ _ c hx hm]
      constructor
      · simp only [true_iff]
        intro c' hc'
        injection hc' with hcc
        subst hcc
        exact List.length_eq_zero.mp hm
      · intro c' hc' hne
        injection hc' with hcc
        subst hcc
        exact absurd (List.length_eq_zero.mp hm) hne
    · rw [writeBackDecision_some_nonempty mid _ _ c hx hm]
      constructor
      · simp only [Bool.false_eq_true, false_iff, not_forall]
        exact ⟨c, rfl, fun hc => hm (by rw [hc]; rfl)⟩
      · intro c' hc' hne
        injection hc' with hcc
        subst hcc
        exact ⟨rfl, rfl⟩

/-- A non-empty local record with a different chat id. -/
def demoFullRecord : ChatHistoryItem :=
  { id := "c9", urlId := some "u1", description := none, messages := [mA] }

/-- A successful remote restore finding the non-empty `demoFullRecord`
locally. -/
def demoInputSkipSave : ActivationInput :=
  { dbOk := true, localLoad := LocalLoad.ok none none, rewindId := none, genId := "g",
    cmdActions := demoCmd, detectThrows := false, restoreFilesOk := true,
    remote := RemoteOutcome.ok [mC] (some "u1") none,
    existingById := some demoFullRecord, existingByUrlId := none }

/-- Witness for the amended C6 at a concrete input: a non-empty local
record with a different id suppresses the write-back and is adopted. -/
theorem write_back_condition_witness :
    (demoInputSkipSave.localLoad = LocalLoad.ok none none ∧
     demoInputSkipSave.remote = RemoteOutcome.ok [mC] (some "u1") none ∧
     0 < ([mC] : List Message).length ∧
     demoInputSkipSave.dbOk = true) ∧
    (((runActivation false (some "c1") demoInputSkipSave).wroteBack = true ↔
       ∀ c, demoInputSkipSave.existingById.orElse
           (fun _ => effectiveByUrlLookup (some "u1") demoInputSkipSave.existingByUrlId)
           = some c →
         c.messages = []) ∧
     (∀ c, demoInputSkipSave.existingById.orElse
         (fun _ => effectiveByUrlLookup (some "u1") demoInputSkipSave.existingByUrlId)
         = some c →
       c.messages ≠ [] →
       (runActivation false (some "c1") demoInputSkipSave).wroteBack = false ∧
       (runActivation false (some "c1") demoInputSkipSave).adoptedId =
         (if c.id ≠ "c1" then some c.id else none))) :=
  ⟨⟨rfl, rfl, by decide, rfl⟩,
    write_back_condition "c1" demoInputSkipSave none none [mC] (some "u1") none
      rfl rfl rfl (by decide) rfl⟩

/-! ## Periodic Sync Agents (file sync and workbench sync) -/

/-- State of the file sync agent: bound project id, presence of the
files getter, and the serialization of the last successfully synced
files. -/
structure FileSyncService where
  projectId : Option String
  hasGetter : Bool
  lastSyncedFiles : String
deriving DecidableEq

/-- One `syncFiles` call of the file sync agent. `filesJson` is the
serialization (`JSON.stringify`) of the files returned by the getter and
`netOk` whether the network write succeeds (`response.ok` and no thrown
error). Returns the new state and the number of network writes
performed: the call bails out without the project id or getter, skips
the write when the serialization equals the last synced one, and records
the serialization as last-synced only after a successful write. -/
def FileSyncService.syncFiles (st : FileSyncService) (filesJson : String)
    (netOk : Bool) : FileSyncService × Nat :=
  if st.projectId = none ∨ st.hasGetter = false then (st, 0)
  else if filesJson = st.lastSyncedFiles then (st, 0)
  else if netOk then ({ st with lastSyncedFiles := filesJson }, 1)
  else (st, 1)

/-- State of the workbench sync agent: bound project id, presence of the
state getter, and the serialization of the last successfully synced
workbench state. -/
structure WorkbenchSyncService where
  projectId : Option String
  hasGetter : Bool
  lastSyncedState : String
deriving DecidableEq

/-- One `syncState` call of the workbench sync agent, mirroring
`FileSyncService.syncFiles`: bail out without project id or getter, skip
when the serialized state equals the last synced serialization, update
the last-synced serialization only on a successful write. -/
def WorkbenchSyncService.syncState (st : WorkbenchSyncService) (stateJson : String)
    (netOk : Bool) : WorkbenchSyncService × Nat :=
  if st.projectId = none ∨ st.hasGetter = false then (st, 0)
  else if stateJson = st.lastSyncedState then (st, 0)
  else if netOk then ({ st with lastSyncedState := stateJson }, 1)
  else (st, 1)

/-! ## C7: sync suppression -/

/-- C7: for both sync agents, a sync whose serialization equals the last
successfully synced serialization performs no network write; a failed
write leaves the last-synced serialization unchanged while a successful
one records it; hence two syncs in a row over unchanged state, the first
of which succeeds, perform exactly one network write. -/
theorem sync_suppression (fst : FileSyncService) (wst : WorkbenchSyncService)
    (fjson wjson fpid wpid : String)
    (hfp : fst.projectId = some fpid) (hfg : fst.hasGetter = true)
    (hfne : fjson ≠ fst.lastSyncedFiles)
    (hwp : wst.projectId = some wpid) (hwg : wst.hasGetter = true)
    (hwne : wjson ≠ wst.lastSyncedState) :
    FileSyncService.syncFiles fst fst.lastSyncedFiles true = (fst, 0) ∧
    (FileSyncService.syncFiles fst fjson false).1.lastSyncedFiles = fst.lastSyncedFiles ∧
    (FileSyncService.syncFiles fst fjson true).1.lastSyncedFiles = fjson ∧
    (FileSyncService.syncFiles fst fjson true).2 +
      (FileSyncService.syncFiles (FileSyncService.syncFiles fst fjson true).1
        fjson true).2 = 1 ∧
    WorkbenchSyncService.syncState wst wst.lastSyncedState true = (wst, 0) ∧
    (WorkbenchSyncService.syncState wst wjson false).1.lastSyncedState =
      wst.lastSyncedState ∧
    (WorkbenchSyncService.syncState wst wjson true).1.lastSyncedState = wjson ∧
    (WorkbenchSyncService.syncState wst wjson true).2 +
      (WorkbenchSyncService.syncState (WorkbenchSyncService.syncState wst wjson true).1
        wjson true).2 = 1 := by
  refine ⟨?_, ?_, ?_, ?_, ?_, ?_, ?_, ?_⟩ <;>
    simp [FileSyncService.syncFiles, WorkbenchSyncService.syncState,
      hfp, hfg, hfne, hwp, hwg, hwne]

/-- Initial bound state of the file sync agent for the witness. -/
def demoFileSync : FileSyncService :=
  { projectId := some "p1", hasGetter := true, lastSyncedFiles := "" }

/-- Initial bound state of the workbench sync agent for the witness. -/
def demoWorkbenchSync : WorkbenchSyncService :=
  { projectId := some "p1", hasGetter := true, lastSyncedState := "" }

/-- Witness for C7: concrete bound agents with a changed serialization. -/
theorem sync_suppression_witness :
    (demoFileSync.projectId = some "p1" ∧ demoFileSync.hasGetter = true ∧
      "A" ≠ demoFileSync.lastSyncedFiles ∧
     demoWorkbenchSync.projectId = some "p1" ∧ demoWorkbenchSync.hasGetter = true ∧
      "B" ≠ demoWorkbenchSync.lastSyncedState) ∧
    (FileSyncService.syncFiles demoFileSync demoFileSync.lastSyncedFiles true
        = (demoFileSync, 0) ∧
     (FileSyncService.syncFiles demoFileSync "A" false).1.lastSyncedFiles =
       demoFileSync.lastSyncedFiles ∧
     (FileSyncService.syncFiles demoFileSync "A" true).1.lastSyncedFiles = "A" ∧
     (FileSyncService.syncFiles demoFileSync "A" true).2 +
       (FileSyncService.syncFiles (FileSyncService.syncFiles demoFileSync "A" true).1
         "A" true).2 = 1 ∧
     WorkbenchSyncService.syncState demoWorkbenchSync demoWorkbenchSync.lastSyncedState true
        = (demoWorkbenchSync, 0) ∧
     (WorkbenchSyncService.syncState demoWorkbenchSync "B" false).1.lastSyncedState =
       demoWorkbenchSync.lastSyncedState ∧
     (WorkbenchSyncService.syncState demoWorkbenchSync "B" true).1.lastSyncedState = "B" ∧
     (WorkbenchSyncService.syncState demoWorkbenchSync "B" true).2 +
       (WorkbenchSyncService.syncState
         (WorkbenchSyncService.syncState demoWorkbenchSync "B" true).1 "B" true).2 = 1) :=
  ⟨⟨rfl, rfl, by decide, rfl, rfl, by decide⟩,
    sync_suppression demoFileSync demoWorkbenchSync "A" "B" "p1" "p1"
      rfl rfl (by decide) rfl rfl (by decide)⟩

/-! ## C8: no-store exclusion -/

/-- Whether a message's annotation list contains the string tag
`no-store` (`m.annotations?.includes('no-store')`; an absent list is the
empty list, and structured annotation objects never equal the string). -/
def hasNoStore (m : Message) : Bool := decide (Ann.tag "no-store" ∈ m.anns)

/-- A message record of the remote sync payload built by
`syncMessagesToSupabase` (id, role, content and annotations carried
over; parts and tool invocations are carried alongside unchanged and
omitted here). -/
structure SyncRecord where
  id : String
  role : String
  content : String
  anns : List Ann
deriving DecidableEq

/-- The remote message sync payload: drop every message tagged
`no-store`, then map each remaining message to its sync record. -/
def messagesToSync (msgs : List Message) : List SyncRecord :=
  (msgs.filter (fun m => !hasNoStore m)).map
    (fun m => { id := m.id, role := m.role, content := m.content, anns := m.anns })

/-- The message list written to the Local History Store by
`storeMessageHistory`: the archived messages followed by the incoming
messages with every `no-store` message dropped (the filter at the top of
`storeMessageHistory`). -/
def storeMessageHistoryLocalWrite (archived msgs : List Message) : List Message :=
  archived ++ msgs.filter (fun m => !hasNoStore m)

/-- C8: messages tagged `no-store` never appear in the remote message
sync payload — neither in `syncMessagesToSupabase`'s own filter nor in
the composition with `storeMessageHistory`'s prior filter — and are
excluded from the durable local write as well, while untagged messages
are retained. -/
theorem no_store_exclusion (archived msgs : List Message) :
    (∀ r ∈ messagesToSync msgs, Ann.tag "no-store" ∉ r.anns) ∧
    (∀ r ∈ messagesToSync (msgs.filter (fun m => !hasNoStore m)),
        Ann.tag "no-store" ∉ r.anns) ∧
    (∀ m ∈ msgs, hasNoStore m = true →
        m ∉ msgs.filter (fun m => !hasNoStore m)) ∧
    (∀ m ∈ msgs, hasNoStore m = false →
        m ∈ storeMessageHistoryLocalWrite archived msgs) := by
  refine ⟨?_, ?_, ?_, ?_⟩
  · intro r hr
    obtain ⟨m, hm, hrm⟩ := List.mem_map.mp hr
    obtain ⟨hm1, hm2⟩ := List.mem_filter.mp hm
    subst hrm
    simpa [hasNoStore] using hm2
  · intro r hr
    obtain ⟨m, hm, hrm⟩ := List.mem_map.mp hr
    obtain ⟨hm1, hm2⟩ := List.mem_filter.mp hm
    subst hrm
    simpa [hasNoStore] using hm2
  · intro m hm hns hmem
    obtain ⟨_, hm2⟩ := List.mem_filter.mp hmem
    rw [hns] at hm2
    simp at hm2
  · intro m hm hns
    exact List.mem_append_right _ (List.mem_filter.mpr ⟨hm, by simp [hns]⟩)

/-! ## C10: binary file content is not round-tripped -/

/-- A row of the `project_files` table as built by the files POST
action: text files store their content and binary files store a null
content with `file_type` `binary`; `size_bytes` follows the JavaScript
truthiness of the content string. -/
structure FileRow where
  project_id : String
  file_path : String
  content : Option String
  file_type : String
  size_bytes : Nat
deriving DecidableEq

/-- The files POST action's upsert payload: folder entries are dropped,
file entries become rows with null content when binary. -/
def filesToUpsert (projectId : String) (files : List (String × Dirent)) : List FileRow :=
  files.filterMap fun kv =>
    match kv.2 with
    | Dirent.folder => none
    | Dirent.file c b =>
      some { project_id := projectId, file_path := kv.1,
             content := if b then none else some c,
             file_type := if b then "binary" else "text",
             size_bytes := if c = "" then 0 else c.length }

/-- The full-project-load loader's file map: every stored row becomes a
file entry whose content is the stored content or the empty string, with
`isBinary` read off `file_type`. -/
def loadFileMap (rows : List FileRow) : List (String × Dirent) :=
  rows.map fun r => (r.file_path, Dirent.file (r.content.getD "") (r.file_type == "binary"))

/-- C10: a binary file entry is stored as a row with null content and
`file_type` `binary`, and loading maps it back to a file with empty
content and `isBinary = true` — so a save-then-load returns binary files
with empty content — and the load never reproduces a folder entry. -/
theorem binary_file_round_trip (projectId p c : String) (files : List (String × Dirent))
    (hmem : (p, Dirent.file c true) ∈ files) :
    (∃ row ∈ filesToUpsert projectId files,
      row.file_path = p ∧ row.content = none ∧ row.file_type = "binary") ∧
    (p, Dirent.file "" true) ∈ loadFileMap (filesToUpsert projectId files) ∧
    (∀ (rows : List FileRow) (q : String) (d : Dirent),
      (q, d) ∈ loadFileMap rows → d ≠ Dirent.folder) := by
  have hrow : ({ project_id := projectId, file_path := p, content := none,
                 file_type := "binary",
                 size_bytes := if c = "" then 0 else c.length } : FileRow)
      ∈ filesToUpsert projectId files := by
    apply List.mem_filterMap.mpr
    exact ⟨(p, Dirent.file c true), hmem, rfl⟩
  refine ⟨⟨_, hrow, rfl, rfl, rfl⟩, ?_, ?_⟩
  · apply List.mem_map.mpr
    refine ⟨_, hrow, ?_⟩
    simp
  · intro rows q d hmem'
    rcases List.mem_map.mp hmem' with ⟨r, hr, heq⟩
    have hd : d = Dirent.file (r.content.getD "") (r.file_type == "binary") :=
      (congrArg Prod.snd heq).symm
    rw [hd]
    simp

/-- Demo file map with one binary file and one folder. -/
def demoFiles : List (String × Dirent) :=
  [("img.png", Dirent.file "xx" true), ("assets", Dirent.folder)]

/-- Witness for C10 at a concrete file map. -/
theorem binary_file_round_trip_witness :
    ("img.png", Dirent.file "xx" true) ∈ demoFiles ∧
    ((∃ row ∈ filesToUpsert "p1" demoFiles,
       row.file_path = "img.png" ∧ row.content = none ∧ row.file_type = "binary") ∧
     ("img.png", Dirent.file "" true) ∈ loadFileMap (filesToUpsert "p1" demoFiles) ∧
     (∀ (rows : List FileRow) (q : String) (d : Dirent),
       (q, d) ∈ loadFileMap rows → d ≠ Dirent.folder)) :=
  ⟨by decide, binary_file_round_trip "p1" "img.png" "xx" demoFiles (by decide)⟩

/-- Witness for C5: the reconstruction identity at a concrete log and
snapshot. -/
theorem reconstruction_identity_witness :
    (reconcile demoLog (some demoSnap) none "gen" demoCmd).archivedMessages ++
      (if 0 < (reconcile demoLog (some demoSnap) none "gen" demoCmd).startingIdx then
        (reconcile demoLog (some demoSnap) none "gen" demoCmd).visibleMessages.drop 2
      else (reconcile demoLog (some demoSnap) none "gen" demoCmd).visibleMessages) = demoLog :=
  reconstruction_identity demoLog (some demoSnap) "gen" demoCmd

/-- A demo message tagged `no-store`. -/
def mNoStore : Message :=
  { id := "n1", role := "assistant", content := "synthetic", anns := [Ann.tag "no-store"] }

/-- Witness for C8: the exclusion properties at a concrete message
list containing a `no-store` message. -/
theorem no_store_exclusion_witness :
    (∀ r ∈ messagesToSync [mA, mNoStore], Ann.tag "no-store" ∉ r.anns) ∧
    (∀ r ∈ messagesToSync ([mA, mNoStore].filter (fun m => !hasNoStore m)),
        Ann.tag "no-store" ∉ r.anns) ∧
    (∀ m ∈ [mA, mNoStore], hasNoStore m = true →
        m ∉ [mA, mNoStore].filter (fun m => !hasNoStore m)) ∧
    (∀ m ∈ [mA, mNoStore], hasNoStore m = false →
        m ∈ storeMessageHistoryLocalWrite [mB] [mA, mNoStore]) :=
  no_store_exclusion [mB] [mA, mNoStore]
